import Mathlib

/-!
Verification of the smb2-gym state-normalization layer.

Each definition below is a shallow embedding of a function or property of
the repository.  Byte-level RAM reads are modelled by passing the value read
(a natural number in 0..255) as an explicit argument; fallible reads are
modelled with `Option`.  Machine integers are `Nat`/`Int` (Python integers
are unbounded, so no wrapping is needed).
-/

namespace SMB2

/-! ## Constants (src/smb2_gym/constants.py) -/

/-- constants.py line 11: `SCREEN_HEIGHT = 240`. -/
def SCREEN_HEIGHT : Nat := 240

/-- constants.py line 40: `PAGE_SIZE = 256`. -/
def PAGE_SIZE : Nat := 256

/-- constants.py line 42: `GAME_INIT_FRAMES = 300`. -/
def GAME_INIT_FRAMES : Nat := 300

/-- constants.py line 37: `MAX_HEARTS = 4`. -/
def MAX_HEARTS : Nat := 4

/-- constants.py line 36: `MAX_LIVES = 9`. -/
def MAX_LIVES : Nat := 9

/-- smb2_env.py line 58: `AREA_TRANSITION_FRAMES = 98`. -/
def AREA_TRANSITION_FRAMES : Nat := 98

/-- Modelled from the spec: the enemy visibility encoding of
`constants/ram.py` (that file is not under src/; the values are documented in
the docstring of `enemy_visibility_states` in game_state/enemies.py:
0 = Invisible, 1 = Visible, 2 = Dead). -/
def ENEMY_INVISIBLE : Nat := 0

/-- Modelled from the spec: visible enemy state (see `ENEMY_INVISIBLE`). -/
def ENEMY_VISIBLE : Nat := 1

/-- Modelled from the spec: dead enemy state (see `ENEMY_INVISIBLE`). -/
def ENEMY_DEAD : Nat := 2

/-- Modelled from the spec: the sentinel "absent" value `ENEMY_NOT_PRESENT`
of `constants/ram.py` (not under src/).  The spec only requires it to be a
sentinel distinct from any derived reading; the claims are stated against
this named constant, so its numeric value is irrelevant to them. -/
def ENEMY_NOT_PRESENT : Int := -1

/-! ## Position normalizer (src/smb2_gym/game_state/position.py) -/

/-- smb2_env.py `_get_y_position`: read a Y byte and clamp to
`0..SCREEN_HEIGHT-1` via `max(0, min(y_pos, SCREEN_HEIGHT - 1))`. -/
def get_y_position (y_raw : Nat) : Nat :=
  max 0 (min y_raw (SCREEN_HEIGHT - 1))

/-- position.py `x_position_global`: `(x_page * PAGE_SIZE) + x_pos`. -/
def x_position_global (x_page x_pos : Nat) : Nat :=
  x_page * PAGE_SIZE + x_pos

/-- position.py `total_pages_in_sub_area`: raw byte plus one (zero indexed). -/
def total_pages_in_sub_area (raw : Nat) : Nat :=
  raw + 1

/-- position.py `is_vertical_area`: `not bool(direction)` for the raw
scroll-direction byte. -/
def is_vertical_area (scroll_direction : Nat) : Bool :=
  scroll_direction == 0

/-- position.py `_transform_y_coordinate`: wraparound page fix, combine with
`SCREEN_HEIGHT` as the page multiplier, then invert against the area's
maximal Y.  `scroll_direction` and `total_pages_raw` are the bytes consulted
through `is_vertical_area` and `total_pages_in_sub_area`. -/
def transform_y_coordinate (scroll_direction total_pages_raw : Nat)
    (y_page y_pos_raw : Nat) : Int :=
  let y_page' := if y_page = 255 then 0 else y_page
  let y_pos_global : Int := (y_page' * SCREEN_HEIGHT + y_pos_raw : Nat)
  let max_y_in_level : Int :=
    if is_vertical_area scroll_direction then
      (total_pages_in_sub_area total_pages_raw * SCREEN_HEIGHT : Nat)
    else (SCREEN_HEIGHT : Nat)
  max_y_in_level - y_pos_global - 1

/-- position.py `y_position_global`: read the Y page byte, read the Y
position byte through `_get_y_position`, and transform. -/
def y_position_global (scroll_direction total_pages_raw : Nat)
    (y_page y_raw : Nat) : Int :=
  transform_y_coordinate scroll_direction total_pages_raw y_page
    (get_y_position y_raw)

/-! ## Entity telemetry (src/smb2_gym/game_state/enemies.py)

The five enemy slots read fixed RAM addresses (`ENEMY_VISIBILITY`,
`ENEMY_X_POS`, ...).  The bytes read at those addresses are modelled as
functions `Fin 5 → Nat`, together with the player/area bytes consulted by
the global and relative accessors. -/

/-- The RAM bytes consulted by the `EnemiesMixin` accessors. -/
structure EnemiesRam where
  visibility : Fin 5 → Nat
  x_pos : Fin 5 → Nat
  y_pos : Fin 5 → Nat
  x_page : Fin 5 → Nat
  y_page : Fin 5 → Nat
  speed : Fin 5 → Nat
  health : Fin 5 → Nat
  player_x_page : Nat
  player_x_pos : Nat
  player_y_page : Nat
  player_y_pos : Nat
  scroll_direction : Nat
  total_pages_raw : Nat

/-- The slot filter appearing in every accessor:
`if visibility_states[i] in [ENEMY_INVISIBLE, ENEMY_DEAD]`. -/
def slot_absent (vis : Nat) : Bool :=
  vis == ENEMY_INVISIBLE || vis == ENEMY_DEAD

/-- enemies.py `enemy_visibility_states`. -/
def enemy_visibility_states (ram : EnemiesRam) : List Nat :=
  (List.finRange 5).map fun i => ram.visibility i

/-- enemies.py `enemy_x_positions`. -/
def enemy_x_positions (ram : EnemiesRam) : List Int :=
  (List.finRange 5).map fun i =>
    if slot_absent (ram.visibility i) then ENEMY_NOT_PRESENT
    else (ram.x_pos i : Int)

/-- enemies.py `enemy_y_positions`: clamp, then invert within the screen. -/
def enemy_y_positions (ram : EnemiesRam) : List Int :=
  (List.finRange 5).map fun i =>
    if slot_absent (ram.visibility i) then ENEMY_NOT_PRESENT
    else ((SCREEN_HEIGHT - 1 - get_y_position (ram.y_pos i) : Nat) : Int)

/-- enemies.py `enemy_speeds`: two's-complement reinterpretation of the raw
byte (`speed if speed < 128 else speed - 256`). -/
def enemy_speeds (ram : EnemiesRam) : List Int :=
  (List.finRange 5).map fun i =>
    if slot_absent (ram.visibility i) then ENEMY_NOT_PRESENT
    else
      let speed := ram.speed i
      if speed < 128 then (speed : Int) else (speed : Int) - 256

/-- enemies.py `enemy_x_pages`. -/
def enemy_x_pages (ram : EnemiesRam) : List Int :=
  (List.finRange 5).map fun i =>
    if slot_absent (ram.visibility i) then ENEMY_NOT_PRESENT
    else (ram.x_page i : Int)

/-- enemies.py `enemy_y_pages`. -/
def enemy_y_pages (ram : EnemiesRam) : List Int :=
  (List.finRange 5).map fun i =>
    if slot_absent (ram.visibility i) then ENEMY_NOT_PRESENT
    else (ram.y_page i : Int)

/-- enemies.py `enemy_x_positions_global`: `(x_page * PAGE_SIZE) + x_pos`. -/
def enemy_x_positions_global (ram : EnemiesRam) : List Int :=
  (List.finRange 5).map fun i =>
    if slot_absent (ram.visibility i) then ENEMY_NOT_PRESENT
    else (x_position_global (ram.x_page i) (ram.x_pos i) : Int)

/-- enemies.py `enemy_y_positions_global`: read the page byte, clamp the
position byte through `_get_y_position`, and invert through the shared
`_transform_y_coordinate` (which consults the area's scroll direction and
page count). -/
def enemy_y_positions_global (ram : EnemiesRam) : List Int :=
  (List.finRange 5).map fun i =>
    if slot_absent (ram.visibility i) then ENEMY_NOT_PRESENT
    else
      transform_y_coordinate ram.scroll_direction ram.total_pages_raw
        (ram.y_page i) (get_y_position (ram.y_pos i))

/-- enemies.py `enemy_x_positions_relative`: player global X minus enemy
global X. -/
def enemy_x_positions_relative (ram : EnemiesRam) : List Int :=
  (List.finRange 5).map fun i =>
    if slot_absent (ram.visibility i) then ENEMY_NOT_PRESENT
    else
      let ex :=
        if slot_absent (ram.visibility i) then ENEMY_NOT_PRESENT
        else (x_position_global (ram.x_page i) (ram.x_pos i) : Int)
      if ex ≠ ENEMY_NOT_PRESENT then
        (x_position_global ram.player_x_page ram.player_x_pos : Int) - ex
      else ENEMY_NOT_PRESENT

/-- enemies.py `enemy_y_positions_relative`: player global Y minus enemy
global Y. -/
def enemy_y_positions_relative (ram : EnemiesRam) : List Int :=
  (List.finRange 5).map fun i =>
    if slot_absent (ram.visibility i) then ENEMY_NOT_PRESENT
    else
      let ey :=
        if slot_absent (ram.visibility i) then ENEMY_NOT_PRESENT
        else
          transform_y_coordinate ram.scroll_direction ram.total_pages_raw
            (ram.y_page i) (get_y_position (ram.y_pos i))
      if ey ≠ ENEMY_NOT_PRESENT then
        y_position_global ram.scroll_direction ram.total_pages_raw
          ram.player_y_page ram.player_y_pos - ey
      else ENEMY_NOT_PRESENT

/-- enemies.py `enemy_hp`. -/
def enemy_hp (ram : EnemiesRam) : List Int :=
  (List.finRange 5).map fun i =>
    if slot_absent (ram.visibility i) then ENEMY_NOT_PRESENT
    else (ram.health i : Int)

/-! ## Area-transition stabilizer (position.py `global_coordinate_system`,
smb2_env.py `step`/`reset` tracking) -/

/-- The `GlobalCoordinate` named tuple returned by
`global_coordinate_system` (fields area, sub_area, global_x, global_y). -/
structure GlobalCoordinate where
  area : Nat
  sub_area : Nat
  global_x : Nat
  global_y : Int
deriving DecidableEq, Repr

/-- The raw per-call values that `global_coordinate_system` derives from RAM
before stabilization: `self.area`, `self.sub_area`, `self.x_position_global`
and `self.y_position_global` of the current frame. -/
structure RawFrame where
  area : Nat
  sub_area : Nat
  global_x : Nat
  global_y : Int
deriving DecidableEq, Repr

/-- The mutable tracking attributes set in `_init_state_tracking` and
updated by `reset`/`step`: `_previous_sub_area`, `_previous_x_global`,
`_previous_y_global` and `_transition_frame_count`. -/
structure TransitionState where
  prev_sub_area : Option Nat
  prev_x_global : Option Nat
  prev_y_global : Option Int
  transition_frame_count : Nat
deriving DecidableEq, Repr

/-- position.py `global_coordinate_system` (lines 149-181): returns the
reported coordinate together with the updated `_transition_frame_count`
(the only attribute the property itself mutates). -/
def global_coordinate_system (s : TransitionState) (r : RawFrame) :
    GlobalCoordinate × Nat :=
  match s.prev_sub_area, s.prev_x_global, s.prev_y_global with
  | some ps, some px, some py =>
    if s.transition_frame_count = 0 ∧ r.sub_area ≠ ps ∧
        r.global_x = px ∧ r.global_y = py then
      (⟨r.area, ps, r.global_x, r.global_y⟩, 1)
    else if s.transition_frame_count > 0 then
      let c := s.transition_frame_count + 1
      if c ≤ AREA_TRANSITION_FRAMES then
        (⟨r.area, ps, px, py⟩, c)
      else if c = AREA_TRANSITION_FRAMES + 1 then
        (⟨r.area, r.sub_area, r.global_x, r.global_y⟩, 0)
      else
        (⟨r.area, r.sub_area, r.global_x, r.global_y⟩, c)
    else
      (⟨r.area, r.sub_area, r.global_x, r.global_y⟩, s.transition_frame_count)
  | _, _, _ =>
    (⟨r.area, r.sub_area, r.global_x, r.global_y⟩, s.transition_frame_count)

/-- smb2_env.py `step` lines 322-326: call `global_coordinate_system` and
store the returned coordinates as the `_previous_*` tracking values. -/
def track_globals (s : TransitionState) (r : RawFrame) :
    GlobalCoordinate × TransitionState :=
  let gc := global_coordinate_system s r
  (gc.1, ⟨some gc.1.sub_area, some gc.1.global_x, some gc.1.global_y, gc.2⟩)

/-- A sequence of calls to `global_coordinate_system` with the tracking
update of `step` applied after each call. -/
def run_calls (s : TransitionState) : List RawFrame →
    List GlobalCoordinate × TransitionState
  | [] => ([], s)
  | r :: rs =>
    let gs := track_globals s r
    let rest := run_calls gs.2 rs
    (gs.1 :: rest.1, rest.2)

/-! ## Progress/event detector (player_state.py, smb2_env.py) -/

/-- The four per-character completion counters read by `levels_finished`. -/
structure LevelsFinished where
  mario : Nat
  peach : Nat
  toad : Nat
  luigi : Nat
deriving DecidableEq, Repr

/-- player_state.py `level_completed`: false when no previous counters were
recorded, otherwise true iff some character's counter strictly exceeds its
previous-frame value. -/
def level_completed (prev : Option LevelsFinished) (cur : LevelsFinished) :
    Bool :=
  match prev with
  | none => false
  | some p =>
    decide (cur.mario > p.mario) || decide (cur.peach > p.peach) ||
    decide (cur.toad > p.toad) || decide (cur.luigi > p.luigi)

/-- Frame-by-frame evaluation of `level_completed` over a scripted counter
sequence, carrying the retained previous-frame counters (none before the
first frame). -/
def completion_trace_from (prev : Option LevelsFinished) :
    List LevelsFinished → List Bool
  | [] => []
  | c :: rest => level_completed prev c :: completion_trace_from (some c) rest

/-- The trace starting before any previous counters have been recorded. -/
def completion_trace (seq : List LevelsFinished) : List Bool :=
  completion_trace_from none seq

/-- smb2_env.py `_detect_life_loss` (lines 502-519). -/
def detect_life_loss (reset_on_life_loss : Bool)
    (previous_lives : Option Nat) (episode_steps current_lives : Nat) :
    Bool :=
  if !reset_on_life_loss then false
  else
    match previous_lives with
    | none => false
    | some p =>
      if episode_steps < GAME_INIT_FRAMES then false
      else decide (current_lives < p)

/-! ## Hearts (game_state/player_state.py and state/player.py) -/

/-- game_state/player_state.py `hearts` (lines 53-72): enumerated special
cases for the life-meter byte, with an upper-nibble fallback. -/
def hearts_game_state (life_meter : Nat) : Nat :=
  if life_meter = 0x0F then 1
  else if life_meter = 0x1F then 2
  else if life_meter = 0x2F then 3
  else if life_meter = 0x3F then 4
  else
    let hearts := ((life_meter &&& 0xF0) >>> 4) + 1
    if 1 ≤ hearts ∧ hearts ≤ MAX_HEARTS then hearts else 2

/-- state/player.py `hearts` (lines 36-43): single upper-nibble formula. -/
def hearts_state (life_meter : Nat) : Nat :=
  let hearts := ((life_meter &&& 0xF0) >>> 4) + 1
  if 1 ≤ hearts ∧ hearts ≤ MAX_HEARTS then hearts else 2

/-! ## Tile classifier / collision map (src/smb2_gym/game_state/collision_map.py) -/

/-- collision_map.py `TileType` enumeration (values 0..30). -/
inductive TileType where
  | EMPTY
  | SOLID
  | PLATFORM
  | VINE
  | DOOR
  | JAR
  | SPIKES
  | QUICKSAND
  | CONVEYOR_LEFT
  | CONVEYOR_RIGHT
  | LADDER
  | CHAIN
  | CHERRY
  | VEGETABLE
  | POTION
  | MUSHROOM
  | HEART
  | STAR
  | ENEMY
  | BOSS
  | PROJECTILE
  | WATER
  | ICE
  | CLOUD
  | CARPET
  | HAWK_MOUTH
  | CRYSTAL
  | MASK
  | POW_BLOCK
  | BOMB
  | KEY
deriving DecidableEq, Repr

/-- collision_map.py `TILE_ID_MAPPING` (lines 94-130): fixed raw tile
identifier to `TileType` table. -/
def TILE_ID_MAPPING : List (Nat × TileType) :=
  [(0x00, .EMPTY),
   (0xCA, .SOLID), (0xCC, .SOLID), (0xCE, .SOLID),
   (0x4F, .DOOR), (0x51, .DOOR),
   (0xC2, .VINE),
   (0xC8, .SOLID), (0xC9, .SOLID), (0xCB, .SOLID), (0xCD, .SOLID),
   (0xCF, .SOLID), (0xD0, .SOLID), (0xD1, .SOLID), (0xD2, .SOLID),
   (0x10, .PLATFORM), (0x11, .PLATFORM), (0x12, .PLATFORM),
   (0x80, .LADDER), (0x81, .LADDER)]

/-- collision_map.py `collision_map` lines 317-329: map a raw tile
identifier through `TILE_ID_MAPPING`, with the unknown-tile fallback
branches (0x00 to empty, 0xC2 to vine, everything else to empty). -/
def classify_tile (tile_id : Nat) : TileType :=
  match TILE_ID_MAPPING.lookup tile_id with
  | some t => t
  | none =>
    if tile_id = 0x00 then .EMPTY
    else if tile_id = 0xC2 then .VINE
    else .EMPTY

/-- collision_map.py `MAX_SRAM_SIZE = 0x960`. -/
def MAX_SRAM_SIZE : Nat := 0x960

/-- collision_map.py `collision_map` (lines 260-331): one cell of the 16x16
grid.  `read` models `self._nes.read_sram`, whose failure (the `except`
branch) is `none` and defaults the identifier to 0. -/
def collision_map_cell (read : Nat → Option Nat)
    (viewport_x viewport_y : Nat) (y x : Fin 16) : TileType :=
  let world_x := viewport_x + x.val
  let world_y := viewport_y + y.val
  let page_x := world_x / 16
  let tile_x_in_page := world_x % 16
  let tile_y_in_page := world_y % 16
  let page_number := page_x
  let tile_index_in_page := tile_y_in_page * 16 + tile_x_in_page
  let sram_address := (page_number * 256 + tile_index_in_page) % MAX_SRAM_SIZE
  let tile_id := (read sram_address).getD 0
  classify_tile tile_id

/-- Modelled from the spec: `SCREEN_TILES_WIDTH` from `constants/ram.py`
(not under src/); the viewport is 16 tiles wide (256 pixels / 16). -/
def SCREEN_TILES_WIDTH : Nat := 16

/-- Modelled from the spec: `SCREEN_TILES_HEIGHT` from `constants/ram.py`
(not under src/); the screen is 15 tiles high (240 pixels / 16), matching
the spec's "16x16 or 16x15 depending on configuration" grid. -/
def SCREEN_TILES_HEIGHT : Nat := 15

/-- collision_map.py `get_tile_at`: pixel to tile conversion, bounds check
against the screen tile extents, defaulting to empty out of bounds. -/
def get_tile_at (cmap : Fin 16 → Fin 16 → TileType) (x y : Nat) : TileType :=
  let tile_x := x / 16
  let tile_y := y / 16
  if h : tile_x < SCREEN_TILES_WIDTH ∧ tile_y < SCREEN_TILES_HEIGHT then
    cmap ⟨tile_y, by simp only [SCREEN_TILES_HEIGHT, SCREEN_TILES_WIDTH] at h; omega⟩
      ⟨tile_x, by simp only [SCREEN_TILES_HEIGHT, SCREEN_TILES_WIDTH] at h; omega⟩
  else .EMPTY

/-- collision_map.py `is_solid`. -/
def is_solid (cmap : Fin 16 → Fin 16 → TileType) (x y : Nat) : Bool :=
  get_tile_at cmap x y == .SOLID

/-- collision_map.py `is_climbable`: ladder, vine or chain. -/
def is_climbable (cmap : Fin 16 → Fin 16 → TileType) (x y : Nat) : Bool :=
  let t := get_tile_at cmap x y
  t == .LADDER || t == .VINE || t == .CHAIN

/-! ## Spec-side formulas used by the refinement-style claims -/

/-- The C2 claim's Y formula as the claim states it: the page is combined
with the multiplier 256 (`raw_global_y = p * 256 + clamp(o, 0, 239)`). -/
def claim_global_y_page256 (scroll_direction total_pages_raw y_page y_raw :
    Nat) : Int :=
  let page := if y_page = 255 then 0 else y_page
  let raw_global_y : Int := (page * 256 + min (max y_raw 0) (SCREEN_HEIGHT - 1) : Nat)
  let max_y : Int :=
    if is_vertical_area scroll_direction then
      (SCREEN_HEIGHT * total_pages_in_sub_area total_pages_raw : Nat)
    else (SCREEN_HEIGHT : Nat)
  max_y - raw_global_y - 1

/-- The C2 claim with the page multiplier corrected to the screen height:
`raw_global_y = p * screen_height + clamp(o, 0, screen_height - 1)`, then
`global_y = max_y_in_level - raw_global_y - 1`. -/
def amended_global_y (scroll_direction total_pages_raw y_page y_raw :
    Nat) : Int :=
  let page := if y_page = 255 then 0 else y_page
  let raw_global_y : Int :=
    (page * SCREEN_HEIGHT + min (max y_raw 0) (SCREEN_HEIGHT - 1) : Nat)
  let max_y : Int :=
    if is_vertical_area scroll_direction then
      (SCREEN_HEIGHT * total_pages_in_sub_area total_pages_raw : Nat)
    else (SCREEN_HEIGHT : Nat)
  max_y - raw_global_y - 1

/-- The C3 claim's formula: enemy global Y inverted against the non-vertical
screen-height baseline, regardless of the area's scroll direction. -/
def claim_enemy_y_nonvertical (y_page y_raw : Nat) : Int :=
  let page := if y_page = 255 then 0 else y_page
  (SCREEN_HEIGHT : Int) - (page * SCREEN_HEIGHT + get_y_position y_raw : Nat) - 1

/-! ## Theorems -/

/-- C5: the global X position combines page and offset as `p * 256 + o`; it
is monotonically non-decreasing in the offset within a fixed page and grows
by exactly 256 per page increment; page 1 / offset 10 gives 266, and Y page
0 / offset 5 in a non-vertical area (screen height 240) gives `240 - 5 - 1`. -/
theorem C5_global_x_page_offset (p o k sd tp : Nat)
    (hsd : is_vertical_area sd = false) :
    x_position_global p o = p * 256 + o ∧
    x_position_global p o ≤ x_position_global p (o + k) ∧
    x_position_global (p + 1) o = x_position_global p o + 256 ∧
    x_position_global 1 10 = 266 ∧
    y_position_global sd tp 0 5 = (SCREEN_HEIGHT : Int) - 5 - 1 := by
  refine ⟨rfl, ?_, ?_, rfl, ?_⟩
  · simp only [x_position_global]
    omega
  · simp only [x_position_global, PAGE_SIZE]
    ring
  · simp [y_position_global, transform_y_coordinate, get_y_position, hsd,
      SCREEN_HEIGHT]

/-- Closed instance of `C5_global_x_page_offset` at page 2, offsets 3 and
3 + 4, scroll direction 1 (non-vertical). -/
theorem C5_global_x_page_offset_witness :
    is_vertical_area 1 = false ∧
    (x_position_global 2 3 = 2 * 256 + 3 ∧
     x_position_global 2 3 ≤ x_position_global 2 (3 + 4) ∧
     x_position_global (2 + 1) 3 = x_position_global 2 3 + 256 ∧
     x_position_global 1 10 = 266 ∧
     y_position_global 1 0 0 5 = (SCREEN_HEIGHT : Int) - 5 - 1) :=
  ⟨by decide, C5_global_x_page_offset 2 3 4 1 0 (by decide)⟩

/-- C7: life loss is reported exactly when detection is enabled, a previous
life count is recorded, the episode step count has reached the 300-frame
grace period, and the current life count is strictly below the previous. -/
theorem C7_detect_life_loss_iff (r : Bool) (prev : Option Nat)
    (steps cur : Nat) :
    detect_life_loss r prev steps cur = true ↔
      (r = true ∧ ∃ p, prev = some p ∧ GAME_INIT_FRAMES ≤ steps ∧ cur < p) := by
  cases r <;> cases prev <;>
    simp [detect_life_loss, GAME_INIT_FRAMES]

set_option maxRecDepth 4000 in
/-- C10: the two coexisting `hearts` revisions agree on every life-meter
byte and always yield a value in 1..4. -/
theorem C10_hearts_equivalent :
    ∀ b, b < 256 → hearts_game_state b = hearts_state b ∧
      1 ≤ hearts_game_state b ∧ hearts_game_state b ≤ 4 := by decide

/-- Closed instance of `C10_hearts_equivalent` at the byte 0x2F. -/
theorem C10_hearts_equivalent_witness :
    47 < 256 ∧ (hearts_game_state 47 = hearts_state 47 ∧
      1 ≤ hearts_game_state 47 ∧ hearts_game_state 47 ≤ 4) :=
  ⟨by decide, C10_hearts_equivalent 47 (by decide)⟩

/-- C9: solidity and climbability are mutually exclusive at every pixel:
climbable holds exactly on ladder/vine/chain tiles, solid exactly on solid
tiles, and those tile subsets are disjoint across the whole enumeration. -/
theorem C9_solid_climbable_exclusive (cmap : Fin 16 → Fin 16 → TileType)
    (x y : Nat) :
    (¬(is_solid cmap x y = true ∧ is_climbable cmap x y = true)) ∧
    (is_climbable cmap x y = true ↔
      (get_tile_at cmap x y = .LADDER ∨ get_tile_at cmap x y = .VINE ∨
       get_tile_at cmap x y = .CHAIN)) ∧
    (is_solid cmap x y = true ↔ get_tile_at cmap x y = .SOLID) ∧
    (∀ t : TileType,
      ¬(t = .SOLID ∧ (t = .LADDER ∨ t = .VINE ∨ t = .CHAIN))) := by
  refine ⟨?_, ?_, ?_, by intro t; cases t <;> simp⟩ <;>
    cases ht : get_tile_at cmap x y <;>
      simp [is_solid, is_climbable, ht]

/-- C8: every raw tile identifier classifies to exactly one tile type — the
table entry when the identifier is mapped and empty otherwise; a failing
persistent-memory read yields an empty cell, and every cell of the map is
the classification of some identifier (hence a valid `TileType`). -/
theorem C8_classification_total (id : Nat) (read : Nat → Option Nat)
    (vx vy : Nat) (y x : Fin 16) :
    classify_tile id = (TILE_ID_MAPPING.lookup id).getD .EMPTY ∧
    collision_map_cell (fun _ => none) vx vy y x = .EMPTY ∧
    (∃ tid, collision_map_cell read vx vy y x = classify_tile tid) := by
  refine ⟨?_, rfl, ⟨_, rfl⟩⟩
  cases h : TILE_ID_MAPPING.lookup id with
  | some t => simp [classify_tile, h]
  | none =>
    have h2 : id ≠ 0xC2 := by
      rintro rfl
      simp [TILE_ID_MAPPING, List.lookup] at h
    simp [classify_tile, h, h2]

/-- The claim's page-256 Y formula disagrees with the code at page 1,
offset 0 in a non-vertical area: the code yields `240 - 240 - 1 = -1`, the
claimed formula `240 - 256 - 1 = -17`. -/
theorem C2_counterexample :
    y_position_global 1 0 1 0 = -1 ∧
    claim_global_y_page256 1 0 1 0 = -17 ∧
    y_position_global 1 0 1 0 ≠ claim_global_y_page256 1 0 1 0 := by decide

/-- C2 (amended): for every Y page and offset byte the code computes
`raw_global_y = page * screen_height + clamp(offset, 0, screen_height - 1)`
(with page 255 treated as 0), then `global_y = max_y - raw_global_y - 1`
against the vertical or non-vertical baseline. -/
theorem C2_global_y_formula (d tp p o : Nat) :
    y_position_global d tp p o = amended_global_y d tp p o := by
  by_cases hp : p = 255 <;>
    by_cases hv : is_vertical_area d = true <;>
      simp [y_position_global, transform_y_coordinate, amended_global_y,
        get_y_position, total_pages_in_sub_area, SCREEN_HEIGHT, hp, hv] <;>
      omega

/-- Length of a completion trace equals the length of the scripted input. -/
theorem completion_trace_from_length (prev : Option LevelsFinished)
    (seq : List LevelsFinished) :
    (completion_trace_from prev seq).length = seq.length := by
  induction seq generalizing prev with
  | nil => rfl
  | cons c rest ih => simp [completion_trace_from, ih]

/-- Default record for list indexing of scripted counter sequences. -/
def LF_default : LevelsFinished := ⟨0, 0, 0, 0⟩

/-- Each non-initial trace entry compares the frame's counters against the
counters retained from the previous frame. -/
theorem completion_trace_from_getD (prev : Option LevelsFinished)
    (seq : List LevelsFinished) (i : Nat) (hi : i + 1 < seq.length) :
    (completion_trace_from prev seq).getD (i + 1) false =
      level_completed (some (seq.getD i LF_default))
        (seq.getD (i + 1) LF_default) := by
  induction seq generalizing prev i with
  | nil => simp at hi
  | cons c rest ih =>
    cases rest with
    | nil => simp at hi
    | cons c2 rest2 =>
      cases i with
      | zero => simp [completion_trace_from]
      | succ j =>
        have hj : j + 1 < (c2 :: rest2).length := by
          simp only [List.length_cons] at hi ⊢
          omega
        have h2 := ih (some c) j hj
        simpa [completion_trace_from] using h2

/-- C6: the completion trace is false on the first frame (no previous
counters recorded) and true on a later frame exactly when some character's
counter strictly exceeds its previous-frame value; the scripted mario
sequence 0,0,1,1 completes only at index 2. -/
theorem C6_level_completed_trace (seq : List LevelsFinished) (i : Nat)
    (hi : i + 1 < seq.length) :
    (completion_trace seq).getD 0 false = false ∧
    ((completion_trace seq).getD (i + 1) false = true ↔
      ((seq.getD (i + 1) LF_default).mario > (seq.getD i LF_default).mario ∨
       (seq.getD (i + 1) LF_default).peach > (seq.getD i LF_default).peach ∨
       (seq.getD (i + 1) LF_default).toad > (seq.getD i LF_default).toad ∨
       (seq.getD (i + 1) LF_default).luigi > (seq.getD i LF_default).luigi)) ∧
    completion_trace [⟨0,0,0,0⟩, ⟨0,0,0,0⟩, ⟨1,0,0,0⟩, ⟨1,0,0,0⟩] =
      [false, false, true, false] := by
  refine ⟨?_, ?_, by decide⟩
  · cases seq with
    | nil => rfl
    | cons c rest => rfl
  · rw [completion_trace, completion_trace_from_getD _ _ _ hi]
    simp [level_completed]
    tauto

/-- Closed instance of `C6_level_completed_trace` on the scripted sequence
0,0,1,1 at index 2 (the completion frame). -/
theorem C6_level_completed_trace_witness :
    (1 + 1 <
      ([⟨0,0,0,0⟩, ⟨0,0,0,0⟩, ⟨1,0,0,0⟩, ⟨1,0,0,0⟩] :
        List LevelsFinished).length) ∧
    ((completion_trace
        [⟨0,0,0,0⟩, ⟨0,0,0,0⟩, ⟨1,0,0,0⟩, ⟨1,0,0,0⟩]).getD 0 false = false ∧
     ((completion_trace
        [⟨0,0,0,0⟩, ⟨0,0,0,0⟩, ⟨1,0,0,0⟩, ⟨1,0,0,0⟩]).getD (1 + 1) false =
          true ↔
       ((([⟨0,0,0,0⟩, ⟨0,0,0,0⟩, ⟨1,0,0,0⟩, ⟨1,0,0,0⟩] :
            List LevelsFinished).getD (1 + 1) LF_default).mario >
          (([⟨0,0,0,0⟩, ⟨0,0,0,0⟩, ⟨1,0,0,0⟩, ⟨1,0,0,0⟩] :
            List LevelsFinished).getD 1 LF_default).mario ∨
        (([⟨0,0,0,0⟩, ⟨0,0,0,0⟩, ⟨1,0,0,0⟩, ⟨1,0,0,0⟩] :
            List LevelsFinished).getD (1 + 1) LF_default).peach >
          (([⟨0,0,0,0⟩, ⟨0,0,0,0⟩, ⟨1,0,0,0⟩, ⟨1,0,0,0⟩] :
            List LevelsFinished).getD 1 LF_default).peach ∨
        (([⟨0,0,0,0⟩, ⟨0,0,0,0⟩, ⟨1,0,0,0⟩, ⟨1,0,0,0⟩] :
            List LevelsFinished).getD (1 + 1) LF_default).toad >
          (([⟨0,0,0,0⟩, ⟨0,0,0,0⟩, ⟨1,0,0,0⟩, ⟨1,0,0,0⟩] :
            List LevelsFinished).getD 1 LF_default).toad ∨
        (([⟨0,0,0,0⟩, ⟨0,0,0,0⟩, ⟨1,0,0,0⟩, ⟨1,0,0,0⟩] :
            List LevelsFinished).getD (1 + 1) LF_default).luigi >
          (([⟨0,0,0,0⟩, ⟨0,0,0,0⟩, ⟨1,0,0,0⟩, ⟨1,0,0,0⟩] :
            List LevelsFinished).getD 1 LF_default).luigi)) ∧
     completion_trace [⟨0,0,0,0⟩, ⟨0,0,0,0⟩, ⟨1,0,0,0⟩, ⟨1,0,0,0⟩] =
       [false, false, true, false]) :=
  ⟨by decide,
   C6_level_completed_trace
     [⟨0,0,0,0⟩, ⟨0,0,0,0⟩, ⟨1,0,0,0⟩, ⟨1,0,0,0⟩] 1 (by decide)⟩

/-- Indexing a five-slot accessor list selects the slot's entry. -/
theorem finRange5_map_getD (f : Fin 5 → Int) (i : Fin 5) (d : Int) :
    ((List.finRange 5).map f).getD i.val d = f i := by
  fin_cases i <;> rfl

/-- C4: a slot whose visibility byte reads invisible or dead reports the
sentinel in every derived accessor — local positions, pages, global
positions, relative positions, speed and HP — whatever its other raw bytes
hold. -/
theorem C4_absent_slot_sentinel (ram : EnemiesRam) (i : Fin 5)
    (hv : ram.visibility i = ENEMY_INVISIBLE ∨
      ram.visibility i = ENEMY_DEAD) :
    (enemy_x_positions ram).getD i.val 0 = ENEMY_NOT_PRESENT ∧
    (enemy_y_positions ram).getD i.val 0 = ENEMY_NOT_PRESENT ∧
    (enemy_x_pages ram).getD i.val 0 = ENEMY_NOT_PRESENT ∧
    (enemy_y_pages ram).getD i.val 0 = ENEMY_NOT_PRESENT ∧
    (enemy_x_positions_global ram).getD i.val 0 = ENEMY_NOT_PRESENT ∧
    (enemy_y_positions_global ram).getD i.val 0 = ENEMY_NOT_PRESENT ∧
    (enemy_x_positions_relative ram).getD i.val 0 = ENEMY_NOT_PRESENT ∧
    (enemy_y_positions_relative ram).getD i.val 0 = ENEMY_NOT_PRESENT ∧
    (enemy_speeds ram).getD i.val 0 = ENEMY_NOT_PRESENT ∧
    (enemy_hp ram).getD i.val 0 = ENEMY_NOT_PRESENT := by
  have hsa : slot_absent (ram.visibility i) = true := by
    rcases hv with h | h <;>
      simp [slot_absent, h, ENEMY_INVISIBLE, ENEMY_DEAD]
  refine ⟨?_, ?_, ?_, ?_, ?_, ?_, ?_, ?_, ?_, ?_⟩ <;>
    simp [enemy_x_positions, enemy_y_positions, enemy_x_pages,
      enemy_y_pages, enemy_x_positions_global, enemy_y_positions_global,
      enemy_x_positions_relative, enemy_y_positions_relative,
      enemy_speeds, enemy_hp, finRange5_map_getD, hsa]

/-- A slot table whose five slots all read dead, with nonzero raw position,
speed and health bytes. -/
def deadRam : EnemiesRam :=
  ⟨fun _ => 2, fun _ => 7, fun _ => 8, fun _ => 9, fun _ => 3,
   fun _ => 200, fun _ => 6, 1, 2, 0, 4, 0, 1⟩

/-- Closed instance of `C4_absent_slot_sentinel` at slot 0 of `deadRam`. -/
theorem C4_absent_slot_sentinel_witness :
    (deadRam.visibility 0 = ENEMY_INVISIBLE ∨
      deadRam.visibility 0 = ENEMY_DEAD) ∧
    ((enemy_x_positions deadRam).getD 0 0 = ENEMY_NOT_PRESENT ∧
     (enemy_y_positions deadRam).getD 0 0 = ENEMY_NOT_PRESENT ∧
     (enemy_x_pages deadRam).getD 0 0 = ENEMY_NOT_PRESENT ∧
     (enemy_y_pages deadRam).getD 0 0 = ENEMY_NOT_PRESENT ∧
     (enemy_x_positions_global deadRam).getD 0 0 = ENEMY_NOT_PRESENT ∧
     (enemy_y_positions_global deadRam).getD 0 0 = ENEMY_NOT_PRESENT ∧
     (enemy_x_positions_relative deadRam).getD 0 0 = ENEMY_NOT_PRESENT ∧
     (enemy_y_positions_relative deadRam).getD 0 0 = ENEMY_NOT_PRESENT ∧
     (enemy_speeds deadRam).getD 0 0 = ENEMY_NOT_PRESENT ∧
     (enemy_hp deadRam).getD 0 0 = ENEMY_NOT_PRESENT) :=
  ⟨Or.inr rfl, C4_absent_slot_sentinel deadRam 0 (Or.inr rfl)⟩

/-- A slot table in a vertically scrolling area (scroll byte 0, two pages)
with all slots visible and slot 0 at Y page 0, offset 5. -/
def verticalRam : EnemiesRam :=
  ⟨fun _ => 1, fun _ => 0, fun _ => 5, fun _ => 0, fun _ => 0,
   fun _ => 0, fun _ => 0, 0, 0, 0, 0, 0, 1⟩

/-- The C3 claim fails on the code: in a vertically scrolling area the
visible slot 0 of `verticalRam` reports global Y `2 * 240 - 5 - 1 = 474`
(the vertical total-pages baseline), not the claimed non-vertical value
`240 - 5 - 1 = 234`. -/
theorem C3_counterexample :
    is_vertical_area verticalRam.scroll_direction = true ∧
    verticalRam.visibility 0 = ENEMY_VISIBLE ∧
    (enemy_y_positions_global verticalRam).getD 0 0 = 474 ∧
    claim_enemy_y_nonvertical (verticalRam.y_page 0) (verticalRam.y_pos 0) =
      234 ∧
    (enemy_y_positions_global verticalRam).getD 0 0 ≠
      claim_enemy_y_nonvertical (verticalRam.y_page 0)
        (verticalRam.y_pos 0) := by decide

/-- C3 (amended): a present (visible) enemy slot's global Y is inverted
with exactly the player's convention — the shared transform that selects
the vertical total-pages baseline in vertically scrolling areas and the
screen-height baseline otherwise. -/
theorem C3_enemy_y_player_convention (ram : EnemiesRam) (i : Fin 5)
    (hv : slot_absent (ram.visibility i) = false) :
    (enemy_y_positions_global ram).getD i.val 0 =
      y_position_global ram.scroll_direction ram.total_pages_raw
        (ram.y_page i) (ram.y_pos i) := by
  simp [enemy_y_positions_global, finRange5_map_getD, hv, y_position_global]

/-- Closed instance of `C3_enemy_y_player_convention` at slot 0 of
`verticalRam`. -/
theorem C3_enemy_y_player_convention_witness :
    slot_absent (verticalRam.visibility 0) = false ∧
    (enemy_y_positions_global verticalRam).getD 0 0 =
      y_position_global verticalRam.scroll_direction
        verticalRam.total_pages_raw (verticalRam.y_page 0)
        (verticalRam.y_pos 0) :=
  ⟨by decide, C3_enemy_y_player_convention verticalRam 0 (by decide)⟩

/-- During an active hold with counter `c` (`1 ≤ c` and room left before the
98-frame threshold), every call reports the stored pre-transition sub-area
and coordinates with the raw area passing through, and the tracking state
keeps the stored values while the counter advances. -/
theorem run_calls_hold (ps px : Nat) (py : Int) (c : Nat)
    (rs : List RawFrame) (hc : 1 ≤ c)
    (hlen : c + rs.length ≤ AREA_TRANSITION_FRAMES) :
    run_calls ⟨some ps, some px, some py, c⟩ rs =
      ((rs.map fun r => ⟨r.area, ps, px, py⟩ : List GlobalCoordinate),
       (⟨some ps, some px, some py, c + rs.length⟩ : TransitionState)) := by
  induction rs generalizing c with
  | nil => simp [run_calls]
  | cons r rest ih =>
    have hc0 : ¬(c = 0) := by omega
    have hcp : 0 < c := hc
    have hle : c + 1 ≤ AREA_TRANSITION_FRAMES := by
      simp only [List.length_cons] at hlen
      omega
    have h1 : track_globals ⟨some ps, some px, some py, c⟩ r =
        (⟨r.area, ps, px, py⟩, ⟨some ps, some px, some py, c + 1⟩) := by
      simp [track_globals, global_coordinate_system, hc0, hcp, hle]
    have h2 := ih (c + 1) (by omega)
      (by simp only [List.length_cons] at hlen ⊢; omega)
    have h3 : c + 1 + rest.length = c + (rest.length + 1) := by omega
    simp [run_calls, h1, h2, h3]

/-- C1 (amended): once an onset is detected (sub-area changed, coordinates
unchanged, no hold active), the onset call and the 97 calls after it report
the pre-transition sub-area and coordinates while the raw area passes
through unmodified; the 98th call after onset (counter reaching 99) passes
all current raw values through and resets the counter to 0. -/
theorem C1_transition_hold (ps px : Nat) (py : Int) (r0 rN : RawFrame)
    (rs : List RawFrame) (h0 : r0.sub_area ≠ ps) (hx : r0.global_x = px)
    (hy : r0.global_y = py) (hlen : rs.length = 97) :
    track_globals ⟨some ps, some px, some py, 0⟩ r0 =
      (⟨r0.area, ps, px, py⟩, ⟨some ps, some px, some py, 1⟩) ∧
    run_calls ⟨some ps, some px, some py, 1⟩ rs =
      ((rs.map fun r => ⟨r.area, ps, px, py⟩ : List GlobalCoordinate),
       (⟨some ps, some px, some py, 98⟩ : TransitionState)) ∧
    track_globals ⟨some ps, some px, some py, 98⟩ rN =
      (⟨rN.area, rN.sub_area, rN.global_x, rN.global_y⟩,
       ⟨some rN.sub_area, some rN.global_x, some rN.global_y, 0⟩) := by
  refine ⟨?_, ?_, ?_⟩
  · subst hx hy
    simp [track_globals, global_coordinate_system, h0]
  · have h := run_calls_hold ps px py 1 rs (by omega)
      (by simp [hlen, AREA_TRANSITION_FRAMES])
    rw [h, hlen]
  · simp [track_globals, global_coordinate_system, AREA_TRANSITION_FRAMES]

/-- Closed instance of `C1_transition_hold`: onset from sub-area 1 at
(10, 20) to raw sub-area 2, 97 hold frames with raw values (6, 3, 40, 50),
then a frame (7, 4, 60, 70) passing through. -/
theorem C1_transition_hold_witness :
    ((2 : Nat) ≠ 1 ∧
      (RawFrame.mk 5 2 10 20).global_x = 10 ∧
      (RawFrame.mk 5 2 10 20).global_y = 20 ∧
      (List.replicate 97 (RawFrame.mk 6 3 40 50)).length = 97) ∧
    (track_globals ⟨some 1, some 10, some 20, 0⟩ (RawFrame.mk 5 2 10 20) =
      (⟨5, 1, 10, 20⟩, ⟨some 1, some 10, some 20, 1⟩) ∧
     run_calls ⟨some 1, some 10, some 20, 1⟩
        (List.replicate 97 (RawFrame.mk 6 3 40 50)) =
      (((List.replicate 97 (RawFrame.mk 6 3 40 50)).map
          fun r => ⟨r.area, 1, 10, 20⟩ : List GlobalCoordinate),
       (⟨some 1, some 10, some 20, 98⟩ : TransitionState)) ∧
     track_globals ⟨some 1, some 10, some 20, 98⟩ (RawFrame.mk 7 4 60 70) =
      (⟨7, 4, 60, 70⟩, ⟨some 4, some 60, some 70, 0⟩)) :=
  ⟨⟨by decide, rfl, rfl, by simp⟩,
   C1_transition_hold 1 10 20 (RawFrame.mk 5 2 10 20) (RawFrame.mk 7 4 60 70)
     (List.replicate 97 (RawFrame.mk 6 3 40 50)) (by decide) rfl rfl
     (by simp)⟩

/-- The tracking state and trace on which the stated C1 fails. -/
def c1_start : TransitionState := ⟨some 1, some 10, some 20, 0⟩

/-- The onset frame of the C1 counterexample trace. -/
def c1_onset : RawFrame := ⟨5, 2, 10, 20⟩

/-- The raw values arriving during the hold of the C1 counterexample. -/
def c1_hold : RawFrame := ⟨6, 2, 99, 99⟩

set_option maxRecDepth 10000 in
/-- The C1 claim fails on the code: after the onset (reported as
(5, 1, 10, 20)), the very next call already differs from the onset output
because the raw area byte passes through unheld (area 6, not 5), and the
98th call after onset passes all raw values through (the hold covers only
the 97 calls after onset), so the next 98 calls are not byte-identical to
the onset output. -/
theorem C1_counterexample :
    ((run_calls c1_start (c1_onset :: List.replicate 98 c1_hold)).1.getD 0
        ⟨0, 0, 0, 0⟩ = ⟨5, 1, 10, 20⟩) ∧
    ((run_calls c1_start (c1_onset :: List.replicate 98 c1_hold)).1.getD 1
        ⟨0, 0, 0, 0⟩ = ⟨6, 1, 10, 20⟩) ∧
    ((run_calls c1_start (c1_onset :: List.replicate 98 c1_hold)).1.getD 98
        ⟨0, 0, 0, 0⟩ = ⟨6, 2, 99, 99⟩) ∧
    ((run_calls c1_start (c1_onset :: List.replicate 98 c1_hold)).1.getD 1
        ⟨0, 0, 0, 0⟩ ≠
      (run_calls c1_start (c1_onset :: List.replicate 98 c1_hold)).1.getD 0
        ⟨0, 0, 0, 0⟩) ∧
    ((run_calls c1_start (c1_onset :: List.replicate 98 c1_hold)).1.getD 98
        ⟨0, 0, 0, 0⟩ ≠
      (run_calls c1_start (c1_onset :: List.replicate 98 c1_hold)).1.getD 0
        ⟨0, 0, 0, 0⟩) := by decide

end SMB2
